import Mathlib

/-!
Verification of `mc-monitor.py`, a Minecraft server monitor.

The development shallow-embeds the program's core: the VarInt codec, the
status-protocol client `query_status`, the MOTD normalizer
(`_flatten_description`, `_strip_motd_color_codes`), the fingerprint engine
`_hash_state`, and the poll/notify step `monitor_once`.

Modelling conventions:
* Python values that flow out of `json.loads` are modelled by the inductive
  type `PyVal` (None, bool, int, str, list, dict as an association list).
  Floats do not occur in any verified path and are omitted.
* Python exceptions are modelled by `Except PyErr`; the catch-all
  `try/except` boundary of `query_status` turns an error into the
  `online=false` status dictionary, exactly as in the source.
* The network socket is modelled by an oracle: either the connection fails
  with an error message, or it yields the byte stream the server sends.
  `json.loads` (an external library routine) is likewise an oracle
  parameter, a function from the raw bytes to either a parse error or a
  `PyVal`.
* Machine integers are `Nat`/`Int`; the 32-bit masking of `_pack_varint`
  is an explicit `% 2 ^ 32`.
-/

set_option maxHeartbeats 1000000

/-- A Python value, as produced by `json.loads` and passed around the
status pipeline: `None`, `bool`, `int`, `str`, `list` and `dict`
(an association list keyed by strings).  JSON floats are not modelled;
no verified code path produces or consumes one. -/
inductive PyVal where
  | null
  | bool (b : Bool)
  | num (n : Int)
  | str (s : String)
  | arr (xs : List PyVal)
  | obj (fields : List (String × PyVal))

/-- A raised Python exception, as caught by the `except Exception` boundary
of `query_status`.  Each constructor records the message that `str(e)`
would render. -/
inductive PyErr where
  | connError (msg : String)
  | ioError (msg : String)
  | indexError
  | attributeError
  | valueError (msg : String)
  | jsonError (msg : String)
  | structError
deriving DecidableEq

/-- `str(e)` on a raised exception. -/
def pyErrStr : PyErr → String
  | .connError m => m
  | .ioError m => m
  | .indexError => "index out of range"
  | .attributeError => "object has no attribute get"
  | .valueError m => m
  | .jsonError m => m
  | .structError => "ushort format requires 0 <= number <= 65535"

/-- Python truthiness of a value (`if v:`): `None`, `False`, `0`, `""`,
`[]` and the empty dict are falsy. -/
def pyTruthy : PyVal → Bool
  | .null => false
  | .bool b => b
  | .num n => n != 0
  | .str s => s != ""
  | .arr xs => !xs.isEmpty
  | .obj fs => !fs.isEmpty

/-- Python `v.get(key, default)`: defined on dicts, raises
`AttributeError` on every other value (None, int, str, list have no
`.get`). -/
def pyDictGet (v : PyVal) (key : String) (dflt : PyVal) : Except PyErr PyVal :=
  match v with
  | .obj fields => .ok ((fields.lookup key).getD dflt)
  | _ => .error .attributeError

/-- `int(s)` on a Python string: optional surrounding whitespace, an
optional sign, then decimal digits.  (Pythons digit-group underscores are
not modelled; no verified claim depends on them.) -/
def pyIntOfString (s : String) : Except PyErr Int :=
  let t := s.trim
  let core := if t.startsWith "-" ∨ t.startsWith "+" then t.drop 1 else t
  match core.toNat? with
  | some n => .ok (if t.startsWith "-" then -(n : Int) else (n : Int))
  | none => .error (.valueError ("invalid literal for int(): " ++ s))

/-- Python `int(v)`: ints are returned unchanged, bools coerce to 0/1,
numeric strings are parsed, everything else raises. -/
def pyInt : PyVal → Except PyErr Int
  | .num n => .ok n
  | .bool b => .ok (if b then 1 else 0)
  | .str s => pyIntOfString s
  | _ => .error (.valueError "int() argument must be a number or string")

/-- `sep.join`-free concatenation helper used to render containers. -/
def joinSep (sep : String) : List String → String
  | [] => ""
  | [s] => s
  | s :: rest => s ++ sep ++ joinSep sep rest

/-- Python `repr` of a value, used by `str()` on containers.  String
escaping inside `repr` is not modelled (no verified claim inspects the
rendering of a container). -/
def pyRepr : PyVal → String
  | .null => "None"
  | .bool b => if b then "True" else "False"
  | .num n => toString n
  | .str s => "\x27" ++ s ++ "\x27"
  | .arr xs => "[" ++ joinSep ", " (xs.attach.map fun x => pyRepr x.1) ++ "]"
  | .obj fs =>
      "\x7b" ++
        joinSep ", " (fs.attach.map fun p =>
          "\x27" ++ p.1.1 ++ "\x27: " ++ pyRepr p.1.2) ++ "\x7d"
decreasing_by
  · have h := List.sizeOf_lt_of_mem x.2
    simp only [PyVal.arr.sizeOf_spec] at *
    omega
  · have h := List.sizeOf_lt_of_mem p.2
    have h2 : sizeOf p.1.2 < sizeOf p.1 := by
      obtain ⟨a, b⟩ := p.1
      simp only [Prod.mk.sizeOf_spec]
      omega
    simp only [PyVal.obj.sizeOf_spec] at *
    omega

/-- Python `str(v)`: identity on strings, `repr`-like rendering on
everything else. -/
def pyStr : PyVal → String
  | .str s => s
  | v => pyRepr v

/-- Python `"".join(parts)`. -/
def pyJoin : List String → String
  | [] => ""
  | s :: rest => s ++ pyJoin rest

/-- One character of Python `str.strip()` whitespace (the ASCII subset;
the claims never exercise the exotic Unicode space classes). -/
def pySpaceChar (c : Char) : Bool :=
  c = ' ' ∨ c = '\t' ∨ c = '\n' ∨ c = '\x0d' ∨ c = '\x0b' ∨ c = '\x0c'

/-- Python `s.strip()`: drop leading and trailing whitespace. -/
def pyStrip (s : String) : String :=
  String.mk (((s.data.dropWhile pySpaceChar).reverse.dropWhile pySpaceChar).reverse)

/-- Python `v != h` where `h` is known to be a `str` (the fingerprint
comparison in `monitor_once`): a string compares equal only to an equal
string, so the test is rendered as this boolean equality.  The source
writes `prev_hash != now_hash`; this is its negation-free core. -/
def pyEqStr (v : PyVal) (h : String) : Bool :=
  match v with
  | .str t => t == h
  | _ => false

/-! ## VarInt codec (`_pack_varint`, `_read_varint`, `_recv_exact`) -/

/-- The encoding loop of `_pack_varint`, after the 32-bit mask: emit 7
data bits per byte, setting the continuation bit `0x80` whenever more
bits remain. -/
def packVarintLoop (v : Nat) : List Nat :=
  if h : v >>> 7 ≠ 0 then ((v &&& 0x7F) ||| 0x80) :: packVarintLoop (v >>> 7)
  else [v &&& 0x7F]
decreasing_by
  have hv : v >>> 7 = v / 2 ^ 7 := Nat.shiftRight_eq_div_pow v 7
  have hvpos : 0 < v := by
    rcases Nat.eq_zero_or_pos v with h0 | h0
    · rw [h0] at h
      simp at h
    · exact h0
  calc v >>> 7 = v / 2 ^ 7 := hv
    _ < v := Nat.div_lt_self hvpos (by norm_num)

/-- `_pack_varint(n)`: mask to 32 bits (`n & 0xFFFFFFFF` in Python is
`n mod 2^32` for any int), then run the encoding loop. -/
def _pack_varint (n : Int) : List Nat :=
  packVarintLoop ((n % (2 ^ 32 : Int)).toNat)

/-- UTF-8 encoding of one code point (model of `str.encode("utf-8")`). -/
def utf8Char (c : Char) : List Nat :=
  let n := c.toNat
  if n < 0x80 then [n]
  else if n < 0x800 then [0xC0 + n / 64, 0x80 + n % 64]
  else if n < 0x10000 then [0xE0 + n / 4096, 0x80 + n / 64 % 64, 0x80 + n % 64]
  else [0xF0 + n / 262144, 0x80 + n / 4096 % 64, 0x80 + n / 64 % 64, 0x80 + n % 64]

/-- Model of `s.encode("utf-8")` as a list of byte values. -/
def utf8Bytes (s : String) : List Nat :=
  s.data.flatMap utf8Char

/-- `_pack_mc_string(s)`: VarInt byte length followed by the UTF-8 bytes. -/
def _pack_mc_string (s : String) : List Nat :=
  _pack_varint ((utf8Bytes s).length : Int) ++ utf8Bytes s

/-- The decoding loop of `_read_varint` over the remaining socket stream:
accumulates `num |= (b & 0x7F) << (7 * num_read)`, raises once a sixth
byte is consumed, raises if the stream is exhausted mid-sequence, and
stops at the first byte without the continuation bit, returning the value
and the unread remainder of the stream. -/
def readVarintLoop : List Nat → Nat → Nat → Except PyErr (Nat × List Nat)
  | [], _, _ => .error (.ioError "Socket closed while reading VarInt")
  | val :: rest, num, numRead =>
      let num2 := num ||| ((val &&& 0x7F) <<< (7 * numRead))
      if numRead + 1 > 5 then .error (.ioError "VarInt too big")
      else if val &&& 0x80 == 0 then .ok (num2, rest)
      else readVarintLoop rest num2 (numRead + 1)

/-- `_read_varint(sock)`: decode one VarInt from the front of the
socket's byte stream. -/
def _read_varint (stream : List Nat) : Except PyErr (Nat × List Nat) :=
  readVarintLoop stream 0 0

/-- `_recv_exact(sock, n)`: read exactly `n` bytes, raising if the
stream is exhausted first; returns the bytes and the unread remainder. -/
def _recv_exact (stream : List Nat) (n : Nat) : Except PyErr (List Nat × List Nat) :=
  if stream.length < n then .error (.ioError "Socket closed while reading")
  else .ok (stream.take n, stream.drop n)

/-- The inline VarInt parser over the response `body` in `query_status`
(used for the packet id and the JSON length): reads `body[idx]`
(raising `IndexError` past the end), accumulates 7 bits per byte, and
raises the given message when the index runs out or the shift exceeds 35
with the continuation bit still set.  Returns the value and the index
one past the last byte consumed. -/
def bodyVarint (body : List Nat) (msg : String) : Nat → Nat → Nat → Except PyErr (Nat × Nat)
  | idx, acc, shift =>
    match h : body.get? idx with
    | none => .error .indexError
    | some b =>
        let acc2 := acc ||| ((b &&& 0x7F) <<< shift)
        if b &&& 0x80 == 0 then .ok (acc2, idx + 1)
        else if idx + 1 ≥ body.length ∨ shift + 7 > 35 then .error (.ioError msg)
        else bodyVarint body msg (idx + 1) acc2 (shift + 7)
termination_by idx => body.length - idx
decreasing_by
  rename_i hlen
  rw [not_or] at hlen
  have : idx + 1 < body.length := by omega
  omega

/-! ## Status normalizer (`_flatten_description`, `_strip_motd_color_codes`) -/

/-- `_flatten_description(desc)`: `None` becomes `""`, a string is itself,
a dict contributes its `"text"` entry (when present and a string) followed
by the flattened entries of its `"extra"` list (when present and a list),
a list is the concatenation of its flattened elements, and anything else
is rendered with `str()`. -/
def _flatten_description (d : PyVal) : String :=
  match d with
  | .null => ""
  | .str s => s
  | .obj fields =>
      let tparts : List String :=
        match fields.lookup "text" with
        | some (.str t) => [t]
        | _ => []
      let eparts : List String :=
        match hx : fields.lookup "extra" with
        | some (.arr xs) => xs.attach.map fun x => _flatten_description x.1
        | _ => []
      pyJoin (tparts ++ eparts)
  | .arr xs => pyJoin (xs.attach.map fun x => _flatten_description x.1)
  | .bool b => pyStr (.bool b)
  | .num n => pyStr (.num n)
decreasing_by
  · have hsz : ∀ (l : List (String × PyVal)) (k : String) (v : PyVal),
        l.lookup k = some v → sizeOf v < sizeOf l := by
      intro l
      induction l with
      | nil => intro k v hkv; simp [List.lookup] at hkv
      | cons hd tl ih =>
          intro k v hkv
          rw [List.lookup] at hkv
          split at hkv
          · obtain ⟨a, b⟩ := hd
            cases hkv
            simp only [List.cons.sizeOf_spec, Prod.mk.sizeOf_spec]
            omega
          · have := ih k v hkv
            simp only [List.cons.sizeOf_spec]
            omega
    have h1 := hsz fields "extra" (.arr xs) hx
    have h2 := List.sizeOf_lt_of_mem x.2
    simp only [PyVal.arr.sizeOf_spec, PyVal.obj.sizeOf_spec] at *
    omega
  · have h2 := List.sizeOf_lt_of_mem x.2
    simp only [PyVal.arr.sizeOf_spec] at *
    omega

/-- The scanning loop of `_strip_motd_color_codes`, translated from the
index loop of the source to structural recursion on the character list:
at a marker, skip the marker and the character after it (just the marker
when it is last, which ends the scan); otherwise keep the character. -/
def stripColorLoop : List Char → List Char
  | [] => []
  | [c] => if c = '§' then [] else [c]
  | c :: d :: rest =>
      if c = '§' then stripColorLoop rest
      else c :: stripColorLoop (d :: rest)

/-- `_strip_motd_color_codes(s)`. -/
def _strip_motd_color_codes (s : String) : String :=
  String.mk (stripColorLoop s.data)

/-! ## Status protocol client (`query_status`) -/

/-- The socket oracle for one `socket.create_connection` call: the
connection either fails (refusal, timeout, DNS failure — carrying the
message of the raised exception) or succeeds and the server answers with
the given byte stream. -/
inductive Conn where
  | fail (msg : String)
  | ok (stream : List Nat)

/-- Oracle for the external `json.loads` (composed with the non-failing
`bytes.decode("utf-8", errors="replace")`): maps the raw JSON bytes to
a parse error message or a Python value. -/
abbrev JParse := List Nat → Except String PyVal

/-- `struct.pack(">H", port)`: two big-endian bytes, raising
`struct.error` when the port is outside the unsigned 16-bit range. -/
def structPackH (port : Int) : Except PyErr (List Nat) :=
  if 0 ≤ port ∧ port < 65536 then
    .ok [(port.toNat >>> 8) &&& 0xFF, port.toNat &&& 0xFF]
  else .error .structError

/-- The failure-shaped status dictionary returned by `query_status`. -/
def offlineStatus (e : String) : PyVal :=
  .obj [("online", .bool false), ("error", .str e)]

/-- The success-shaped status dictionary returned by `query_status`. -/
def onlineStatus (motd : String) (pn pm : Int) (vn : String) (vp : Int) : PyVal :=
  .obj [("online", .bool true), ("motd", .str motd),
        ("players", .obj [("online", .num pn), ("max", .num pm)]),
        ("version", .obj [("name", .str vn), ("protocol", .num vp)])]

/-- The body of `query_status` inside its `try`: handshake and request
construction, the length-framed read, the in-body VarInt parses, the JSON
parse, and the extraction of the status fields, any step of which may
raise. -/
def queryStatusEx (parse : JParse) (conn : Conn) (host : String) (port : Int)
    (protocol : Int) : Except PyErr PyVal := do
  match conn with
  | .fail m => throw (.connError m)
  | .ok stream =>
      let portBytes ← structPackH port
      let hsData := _pack_varint 0 ++ _pack_varint protocol ++ _pack_mc_string host
        ++ portBytes ++ _pack_varint 1
      let _packet := _pack_varint (hsData.length : Int) ++ hsData
      let _req := _pack_varint 1 ++ [0x00]
      let szRest ← _read_varint stream
      let bodyRest ← _recv_exact szRest.2 szRest.1
      let body := bodyRest.1
      let pidIdx ← bodyVarint body "Bad packet id VarInt" 0 0 0
      let lenIdx ← bodyVarint body "Bad JSON length VarInt" pidIdx.2 0 0
      let js := (body.drop lenIdx.2).take lenIdx.1
      let dj ← match parse js with
        | .ok j => pure j
        | .error m => throw (.jsonError m)
      let desc ← pyDictGet dj "description" .null
      let motd := pyStrip (_strip_motd_color_codes (_flatten_description desc))
      let players0 ← pyDictGet dj "players" (.obj [])
      let players := if pyTruthy players0 then players0 else .obj []
      let version0 ← pyDictGet dj "version" (.obj [])
      let version := if pyTruthy version0 then version0 else .obj []
      let pnRaw ← pyDictGet players "online" (.num 0)
      let pn ← pyInt pnRaw
      let pmRaw ← pyDictGet players "max" (.num 0)
      let pm ← pyInt pmRaw
      let vnRaw ← pyDictGet version "name" (.str "")
      let vn := pyStr vnRaw
      let vpRaw ← pyDictGet version "protocol" (.num 0)
      let isIntVp : Bool := match vpRaw with
        | .num _ => true
        | .bool _ => true
        | _ => false
      let vp ← if isIntVp then pyInt vpRaw else pure 0
      pure (onlineStatus motd pn pm vn vp)

/-- `query_status(host, port, protocol, timeout)`: run the protocol
exchange and catch every raised exception into the `online=false` /
`error=str(e)` status, per the `except Exception` boundary.  The blocking
timeouts live inside the connection oracle and do not appear separately. -/
def query_status (parse : JParse) (conn : Conn) (host : String) (port : Int)
    (protocol : Int) : PyVal :=
  match queryStatusEx parse conn host port protocol with
  | .ok out => out
  | .error e => offlineStatus (pyErrStr e)

/-! ## Fingerprint engine (`_hash_state`) -/

/-- Lower-case hex digit. -/
def hexDigit (n : Nat) : Char :=
  if n < 10 then Char.ofNat (48 + n) else Char.ofNat (87 + n)

/-- A `\uXXXX` escape for a 16-bit code unit. -/
def uEsc (n : Nat) : List Char :=
  ['\\', 'u', hexDigit (n / 4096 % 16), hexDigit (n / 256 % 16),
   hexDigit (n / 16 % 16), hexDigit (n % 16)]

/-- One character under `json.dumps` default (`ensure_ascii=True`)
escaping: the two mandatory escapes, the short control escapes, `\uXXXX`
for other control and all non-ASCII characters (surrogate pairs beyond
the BMP), and the character itself otherwise. -/
def jsonQuoteChar (c : Char) : List Char :=
  let n := c.toNat
  if c = '"' then ['\\', '"']
  else if c = '\\' then ['\\', '\\']
  else if c = '\n' then ['\\', 'n']
  else if c = '\x0d' then ['\\', 'r']
  else if c = '\t' then ['\\', 't']
  else if c = '\x08' then ['\\', 'b']
  else if c = '\x0c' then ['\\', 'f']
  else if n < 0x20 then uEsc n
  else if n < 0x7F then [c]
  else if n < 0x10000 then uEsc n
  else uEsc (0xD800 + (n - 0x10000) / 0x400) ++ uEsc (0xDC00 + (n - 0x10000) % 0x400)

/-- `json.dumps` rendering of a string literal. -/
def pyJsonQuote (s : String) : String :=
  String.mk ('"' :: (s.data.flatMap jsonQuoteChar ++ ['"']))

/-- Code-point lexicographic string order (Python's `<=` on `str`),
written as an executable boolean on the character lists. -/
def charsLe : List Char → List Char → Bool
  | [], _ => true
  | _ :: _, [] => false
  | c :: cs, d :: ds =>
      if c.toNat < d.toNat then true
      else if d.toNat < c.toNat then false
      else charsLe cs ds

/-- Python string `<=`, used by `sorted` under `sort_keys=True`. -/
def strLe (a b : String) : Bool :=
  charsLe a.data b.data

/-- Stable insertion of a rendered field by key (model of the ordering
`sort_keys=True` applies). -/
def insertByKey (x : String × String) : List (String × String) → List (String × String)
  | [] => [x]
  | y :: ys => if strLe x.1 y.1 then x :: y :: ys else y :: insertByKey x ys

/-- Insertion sort of rendered fields by key. -/
def sortByKey : List (String × String) → List (String × String)
  | [] => []
  | x :: xs => insertByKey x (sortByKey xs)

/-- `json.dumps(v, sort_keys=True)` with the default separators
(`", "` / `": "`) and default `ensure_ascii` escaping: the exact text the
fingerprint is computed over. -/
def jsonDumps (v : PyVal) : String :=
  match v with
  | .null => "null"
  | .bool b => if b then "true" else "false"
  | .num n => toString n
  | .str s => pyJsonQuote s
  | .arr xs => "[" ++ joinSep ", " (xs.attach.map fun x => jsonDumps x.1) ++ "]"
  | .obj fs =>
      let rendered := fs.attach.map fun p =>
        (p.1.1, pyJsonQuote p.1.1 ++ ": " ++ jsonDumps p.1.2)
      "\x7b" ++ joinSep ", " ((sortByKey rendered).map Prod.snd) ++ "\x7d"
decreasing_by
  · have h := List.sizeOf_lt_of_mem x.2
    simp only [PyVal.arr.sizeOf_spec] at *
    omega
  · have h := List.sizeOf_lt_of_mem p.2
    have h2 : sizeOf p.1.2 < sizeOf p.1 := by
      obtain ⟨a, b⟩ := p.1
      simp only [Prod.mk.sizeOf_spec]
      omega
    simp only [PyVal.obj.sizeOf_spec] at *
    omega

/-- Modelled from the spec: `hashlib.sha256(x.encode("utf-8")).hexdigest()`
is an external standard-library primitive, not code of this repository.
The spec's Fingerprint contract requires a digest that is deterministic in
the canonical serialization and that changes whenever a canonical field
changes, i.e. a deterministic injective function of the serialized payload
(UTF-8 encoding of a string is itself injective).  It is modelled as the
simplest such function.  Every theorem below uses only determinism and
injectivity of this map, never the shape of real SHA-256 output. -/
def sha256_hexdigest (payload : String) : String :=
  payload

/-- The `"online"` entry of the fingerprint payload:
`s.get("online", False)`. -/
def canOnline (s : PyVal) : Except PyErr PyVal :=
  pyDictGet s "online" (.bool false)

/-- The `"motd"` entry of the fingerprint payload: `s.get("motd", "")`. -/
def canMotd (s : PyVal) : Except PyErr PyVal :=
  pyDictGet s "motd" (.str "")

/-- The `"players_online"` entry of the fingerprint payload:
`(s.get("players") or {}).get("online", 0)`. -/
def canPlayersOnline (s : PyVal) : Except PyErr PyVal := do
  let p ← pyDictGet s "players" .null
  pyDictGet (if pyTruthy p then p else .obj []) "online" (.num 0)

/-- The `"players_max"` entry of the fingerprint payload:
`(s.get("players") or {}).get("max", 0)`. -/
def canPlayersMax (s : PyVal) : Except PyErr PyVal := do
  let p ← pyDictGet s "players" .null
  pyDictGet (if pyTruthy p then p else .obj []) "max" (.num 0)

/-- The `"version_name"` entry of the fingerprint payload:
`(s.get("version") or {}).get("name", "")`. -/
def canVersionName (s : PyVal) : Except PyErr PyVal := do
  let v ← pyDictGet s "version" .null
  pyDictGet (if pyTruthy v then v else .obj []) "name" (.str "")

/-- The `"version_protocol"` entry of the fingerprint payload:
`(s.get("version") or {}).get("protocol", 0)`. -/
def canVersionProtocol (s : PyVal) : Except PyErr PyVal := do
  let v ← pyDictGet s "version" .null
  pyDictGet (if pyTruthy v then v else .obj []) "protocol" (.num 0)

/-- `_hash_state(s)`: build the six-field payload dict in source order,
serialize it with `json.dumps(..., sort_keys=True)`, hash.  The six
entries are exactly the canonical projections above. -/
def _hash_state (s : PyVal) : Except PyErr String := do
  let onl ← canOnline s
  let motd ← canMotd s
  let po ← canPlayersOnline s
  let pm ← canPlayersMax s
  let vn ← canVersionName s
  let vp ← canVersionProtocol s
  let payload : PyVal := .obj [("online", onl), ("motd", motd),
    ("players_online", po), ("players_max", pm),
    ("version_name", vn), ("version_protocol", vp)]
  pure (sha256_hexdigest (jsonDumps payload))

/-! ## Monitor engine (`_server_key`, `_format_fields`, `monitor_once`) -/

/-- `_server_key(host, port)` = `f"{host}:{port}"`. -/
def _server_key (host : String) (port : Int) : String :=
  host ++ ":" ++ toString port

/-- The inner `fmt` of `_format_fields`: `"(none)"` for a falsy value,
`"Offline"` when the `online` entry is falsy, otherwise the
`Online: n/m Version: v MOTD: m` summary (each piece rendered by
`str()`, as an f-string does). -/
def fmt_status (s : PyVal) : Except PyErr String := do
  if pyTruthy s = false then pure "(none)"
  else do
    let onl ← pyDictGet s "online" (.bool false)
    if pyTruthy onl = false then pure "Offline"
    else do
      let players1 ← pyDictGet s "players" (.obj [])
      let pn ← pyDictGet players1 "online" (.num 0)
      let players2 ← pyDictGet s "players" (.obj [])
      let pm ← pyDictGet players2 "max" (.num 0)
      let version1 ← pyDictGet s "version" (.obj [])
      let ver ← pyDictGet version1 "name" (.str "")
      let motd ← pyDictGet s "motd" (.str "")
      pure ("Online: " ++ pyStr pn ++ "/" ++ pyStr pm ++ " Version: " ++ pyStr ver
        ++ " MOTD: " ++ pyStr motd)

/-- `_format_fields(old, new)`: the two labelled summaries handed to the
notifier. -/
def _format_fields (old new : PyVal) : Except PyErr (List (String × String)) := do
  let p ← fmt_status old
  let c ← fmt_status new
  pure [("Previous", p), ("Current", c)]

/-- A configured server entry, as `add_server_flow` persists it: non-null
host string, int port, optional display name, int protocol. -/
structure Server where
  host : String
  port : Int
  name : Option String
  protocol : Int

/-- The persisted/in-memory state document.  `last` maps a server key to
its baseline entry `{"hash": ..., "data": ...}`. -/
structure MState where
  webhook_url : Option String
  interval_sec : Int
  verbose_status : Bool
  servers : List Server
  last : List (String × PyVal)

/-- Observable side effects of one `monitor_once` call: handing a change
event to the notifier boundary (`send_discord` receives the webhook, the
title, the `host:port` description and the Previous/Current fields), and
the durable `save_state` write. -/
inductive Effect where
  | notify (webhook : Option String) (title desc : String)
      (fields : List (String × String))
  | save (st : MState)

/-- Python dict assignment `d[key] = v` on an association list: replace
in place, or append a fresh key. -/
def setKey : List (String × PyVal) → String → PyVal → List (String × PyVal)
  | [], k, v => [(k, v)]
  | (k2, v2) :: rest, k, v =>
      if k2 = k then (k, v) :: rest else (k2, v2) :: setKey rest k v

/-- `monitor_once(state, srv)`: query, fingerprint, compare to the stored
baseline, and on a change emit the notification and persist the new
baseline.  Console printing is UI and not modelled; the `verbose_status`
heartbeat print on the unchanged branch likewise. -/
def monitor_once (parse : JParse) (net : String → Int → Conn) (state : MState)
    (srv : Server) : Except PyErr (MState × List Effect) :=
  let host := srv.host
  let port := srv.port
  let name := match srv.name with
    | some n => if n = "" then _server_key host port else n
    | none => _server_key host port
  let protocol := srv.protocol
  if host = "" then .ok (state, [])
  else do
    let key := _server_key host port
    let status := query_status parse (net host port) host port protocol
    let now_hash ← _hash_state status
    let prev := (state.last.lookup key).getD (.obj [])
    let prev_hash ← pyDictGet prev "hash" .null
    if pyEqStr prev_hash now_hash then
      .ok (state, [])
    else do
      let prevData ← pyDictGet prev "data" .null
      let fields ← _format_fields prevData status
      let title := "[" ++ name ++ "] Status Changed"
      let desc := _server_key host port
      let entry : PyVal := .obj [("hash", .str now_hash), ("data", status)]
      let st2 := { state with last := setKey state.last key entry }
      .ok (st2, [.notify state.webhook_url title desc fields, .save st2])

/-- A sequence of polls (each with its own network oracle, so the server
may change between polls), run left to right through `monitor_once`,
threading the state. -/
def runPolls (parse : JParse) : List ((String → Int → Conn) × Server) → MState →
    Except PyErr MState
  | [], st => .ok st
  | (net, srv) :: rest, st => do
      let r ← monitor_once parse net st srv
      runPolls parse rest r.1

/-- Whether some poll of the trace targets the given server key (with a
non-empty host, i.e. the poll was not skipped). -/
def tracePolls (trace : List ((String → Int → Conn) × Server)) (key : String) : Bool :=
  trace.any fun p => p.2.host != "" && (_server_key p.2.host p.2.port == key)

/-! ## Spec-side definitions for the normalizer refinement (C7) -/

mutual
/-- A description node as the spec describes it: a plain string, an
object with optional `text` and optional `extra` list, or an array of
nodes. -/
inductive DescNode where
  | txt (s : String)
  | node (text : Option String) (extra : Option DescList)
  | many (xs : DescList)
/-- A list of description nodes (mutual with `DescNode`). -/
inductive DescList where
  | nil
  | cons (hd : DescNode) (tl : DescList)
end

mutual
/-- Flattening exactly as the spec words it: left-to-right, `text` before
the `extra` entries, array elements in order. -/
def specFlatten : DescNode → String
  | .txt s => s
  | .node t e =>
      (match t with | some s => s | none => "") ++
      (match e with | some l => specFlattenList l | none => "")
  | .many xs => specFlattenList xs
/-- Flattening of a node list, concatenated in order. -/
def specFlattenList : DescList → String
  | .nil => ""
  | .cons h t => specFlatten h ++ specFlattenList t
end

mutual
/-- Injection of a spec description node into the Python-value world. -/
def descToPy : DescNode → PyVal
  | .txt s => .str s
  | .node t e =>
      .obj ((match t with | some s => [("text", PyVal.str s)] | none => []) ++
        (match e with | some l => [("extra", PyVal.arr (descListToPy l))] | none => []))
  | .many xs => .arr (descListToPy xs)
/-- Injection of a node list. -/
def descListToPy : DescList → List PyVal
  | .nil => []
  | .cons h t => descToPy h :: descListToPy t
end

/-- Stripping exactly as the spec words it: a marker together with the
one character following it is removed as a pair; a trailing lone marker
is dropped alone; every other character is kept. -/
def specStripChars : List Char → List Char
  | [] => []
  | [c] => if c = '§' then [] else [c]
  | c :: d :: rest =>
      if c = '§' then specStripChars rest
      else c :: specStripChars (d :: rest)

/-! ## Definitions supporting the concrete witnesses -/

/-- A parse oracle that always fails (never consulted on a failed
connection). -/
def wParseFail : JParse := fun _ => .error "Expecting value: line 1 column 1 (char 0)"

/-- A network oracle on which every connection attempt is refused. -/
def wNetFail : String → Int → Conn := fun _ _ => Conn.fail "[Errno 111] Connection refused"

/-- A fresh state: no webhook, default interval, no baselines. -/
def wState0 : MState := ⟨none, 30, false, [], []⟩

/-- A concrete monitored server. -/
def wSrv : Server := ⟨"play.example.org", 25565, none, 767⟩

/-- The fingerprint of the offline status produced against `wNetFail`
(the canonical serialization - the digest model is injective on it). -/
def wDigest : String :=
  "\x7b\"motd\": \"\", \"online\": false, \"players_max\": 0, \"players_online\": 0, \"version_name\": \"\", \"version_protocol\": 0\x7d"

/-- The state after one (failed) poll of `wSrv` from `wState0`. -/
def wState1 : MState :=
  ⟨none, 30, false, [],
   [(_server_key "play.example.org" 25565,
     .obj [("hash", .str wDigest),
           ("data", offlineStatus "[Errno 111] Connection refused")])]⟩

/-! ## Theorems: VarInt codec -/

/-- `v &&& 127` is `v mod 128`. -/
theorem land127_eq_mod (v : Nat) : v &&& 127 = v % 128 := by
  have h : (127 : Nat) = 2 ^ 7 - 1 := by norm_num
  rw [h, Nat.and_pow_two_sub_one_eq_mod]

/-- `v &&& 127` is below 128. -/
theorem land127_lt (v : Nat) : v &&& 127 < 128 := by
  rw [land127_eq_mod]
  exact Nat.mod_lt _ (by norm_num)

/-- A value below 128 has no bit 7. -/
theorem land128_eq_zero {v : Nat} (h : v < 128) : v &&& 128 = 0 := by
  apply Nat.eq_of_testBit_eq
  intro i
  simp only [Nat.testBit_and, Nat.zero_testBit]
  have h128 : (128 : Nat) = 2 ^ 7 := by norm_num
  rcases eq_or_ne i 7 with rfl | hne
  · have hv : v.testBit 7 = false := Nat.testBit_lt_two_pow (by norm_num; omega)
    simp [hv]
  · have h2 : (128 : Nat).testBit i = false := by
      rw [h128]
      exact Nat.testBit_two_pow_of_ne (by omega)
    simp [h2]

/-- The data bits of a continuation byte. -/
theorem contByte_land127 (v : Nat) : ((v &&& 127) ||| 128) &&& 127 = v &&& 127 := by
  rw [Nat.and_distrib_right, Nat.and_assoc, Nat.and_self]
  have h : (128 : Nat) &&& 127 = 0 := by decide
  rw [h, Nat.or_zero]

/-- A continuation byte has bit 7 set. -/
theorem contByte_land128 (v : Nat) : ((v &&& 127) ||| 128) &&& 128 = 128 := by
  rw [Nat.and_distrib_right, land128_eq_zero (land127_lt v), Nat.and_self, Nat.zero_or]

/-- Left shift distributes over bitwise or. -/
theorem shiftLeft_lor (a b n : Nat) : (a ||| b) <<< n = (a <<< n) ||| (b <<< n) := by
  apply Nat.eq_of_testBit_eq
  intro i
  simp [Nat.testBit_shiftLeft, Nat.testBit_or, Bool.and_or_distrib_left]

/-- A value is its low 7 bits or-ed with its high bits shifted back up. -/
theorem decompose7 (v : Nat) : (v &&& 127) ||| ((v >>> 7) <<< 7) = v := by
  apply Nat.eq_of_testBit_eq
  intro i
  have h127 : (127 : Nat) = 2 ^ 7 - 1 := by norm_num
  simp only [Nat.testBit_or, Nat.testBit_and, Nat.testBit_shiftLeft,
    Nat.testBit_shiftRight, h127, Nat.testBit_two_pow_sub_one]
  rcases Nat.lt_or_ge i 7 with hi | hi
  · have d1 : decide (i < 7) = true := by simpa using hi
    have d2 : decide (i ≥ 7) = false := by simpa using Nat.not_le.mpr hi
    simp [d1, d2]
  · have d1 : decide (i < 7) = false := by simpa using Nat.not_lt.mpr hi
    have d2 : decide (i ≥ 7) = true := by simpa using hi
    have harith : 7 + (i - 7) = i := by omega
    simp [d1, d2, harith]

/-- Decoding inverts the encoding loop: reading from a packed value
prefixed stream or-accumulates the value at the current shift position,
provided the byte budget suffices. -/
theorem readLoop_pack (v : Nat) : ∀ (k acc : Nat) (rest : List Nat),
    k + (packVarintLoop v).length ≤ 5 →
    readVarintLoop (packVarintLoop v ++ rest) acc k =
      .ok (acc ||| (v <<< (7 * k)), rest) := by
  induction v using Nat.strong_induction_on with
  | _ v ih =>
    intro k acc rest hlen
    rw [packVarintLoop] at hlen ⊢
    by_cases h : v >>> 7 ≠ 0
    · rw [dif_pos h] at hlen ⊢
      rw [List.cons_append, readVarintLoop]
      have hlen1 : ¬ (k + 1 > 5) := by
        have : 1 ≤ (packVarintLoop (v >>> 7)).length := by
          rw [packVarintLoop]
          split <;> simp
        simp only [List.length_cons] at hlen
        omega
      rw [if_neg hlen1]
      have hcont : (((v &&& 127) ||| 128) &&& 128 == 0) = false := by
        rw [contByte_land128]
        decide
      rw [if_neg (by simp [hcont])]
      have hlt : v >>> 7 < v := by
        have hv : v >>> 7 = v / 2 ^ 7 := Nat.shiftRight_eq_div_pow v 7
        have hvpos : 0 < v := by
          rcases Nat.eq_zero_or_pos v with h0 | h0
          · rw [h0] at h
            simp at h
          · exact h0
        rw [hv]
        exact Nat.div_lt_self hvpos (by norm_num)
      rw [ih (v >>> 7) hlt (k + 1) _ rest (by simp only [List.length_cons] at hlen; omega)]
      congr 2
      rw [contByte_land127]
      calc acc ||| (v &&& 127) <<< (7 * k) ||| (v >>> 7) <<< (7 * (k + 1))
          = acc ||| ((v &&& 127) <<< (7 * k) ||| (v >>> 7) <<< (7 + 7 * k)) := by
            rw [Nat.lor_assoc]
            have he : 7 * (k + 1) = 7 + 7 * k := by omega
            rw [he]
        _ = acc ||| ((v &&& 127) <<< (7 * k) ||| ((v >>> 7) <<< 7) <<< (7 * k)) := by
            rw [Nat.shiftLeft_add]
        _ = acc ||| ((v &&& 127) ||| (v >>> 7) <<< 7) <<< (7 * k) := by
            rw [shiftLeft_lor]
        _ = acc ||| v <<< (7 * k) := by rw [decompose7]
    · rw [dif_neg h] at hlen ⊢
      push_neg at h
      have hv : v < 128 := by
        by_contra hge
        push_neg at hge
        rw [Nat.shiftRight_eq_div_pow] at h
        have h1 : 1 ≤ v / 2 ^ 7 := (Nat.one_le_div_iff (by norm_num)).mpr (by norm_num; omega)
        omega
      have h127 : v &&& 127 = v := by
        have h2 : (127 : Nat) = 2 ^ 7 - 1 := by norm_num
        rw [h2]
        exact Nat.and_pow_two_sub_one_of_lt_two_pow (by norm_num; omega)
      rw [List.cons_append, List.nil_append, h127, readVarintLoop]
      have hlen1 : ¬ (k + 1 > 5) := by
        simp only [List.length_singleton] at hlen
        omega
      rw [if_neg hlen1]
      rw [if_pos (show (v &&& 128 == 0) = true by rw [land128_eq_zero hv]; rfl)]
      rw [h127]

/-- The encoding loop emits at most `k + 1` bytes for values below
`2 ^ (7 k + 7)`. -/
theorem packLoop_length_le : ∀ (k v : Nat), v < 2 ^ (7 * k + 7) →
    (packVarintLoop v).length ≤ k + 1 := by
  intro k
  induction k with
  | zero =>
      intro v hv
      rw [packVarintLoop]
      have h0 : v >>> 7 = 0 := by
        rw [Nat.shiftRight_eq_div_pow]
        apply Nat.div_eq_of_lt
        exact lt_of_lt_of_eq hv (by norm_num)
      rw [dif_neg (by simp [h0])]
      simp
  | succ k ih =>
      intro v hv
      rw [packVarintLoop]
      by_cases h : v >>> 7 ≠ 0
      · rw [dif_pos h]
        simp only [List.length_cons]
        have hlt : v >>> 7 < 2 ^ (7 * k + 7) := by
          rw [Nat.shiftRight_eq_div_pow]
          rw [Nat.div_lt_iff_lt_mul (by positivity)]
          calc v < 2 ^ (7 * (k + 1) + 7) := hv
            _ = 2 ^ (7 * k + 7) * 2 ^ 7 := by
              have he : 7 * (k + 1) + 7 = 7 * k + 7 + 7 := by omega
              rw [he, pow_add]
        exact Nat.succ_le_succ (ih _ hlt)
      · rw [dif_neg h]
        simp

/-- C5: VarInt round-trip: for every integer n in [0, 2^31 - 1], decoding
the byte sequence produced by the VarInt encoder yields n back:
`_read_varint` applied to a stream beginning with `_pack_varint(n)`
returns n and leaves the rest of the stream unread. -/
theorem C5_varint_round_trip (n : Nat) (rest : List Nat) (h : n ≤ 2 ^ 31 - 1) :
    _read_varint (_pack_varint (n : Int) ++ rest) = .ok (n, rest) := by
  have h32 : (n : Int) % (2 ^ 32 : Int) = (n : Int) := by
    apply Int.emod_eq_of_lt (by positivity)
    have hn : n < 2 ^ 32 := by
      have h2 : (2 ^ 31 - 1 : Nat) < 2 ^ 32 := by norm_num
      omega
    exact_mod_cast hn
  rw [_pack_varint, h32, Int.toNat_ofNat, _read_varint]
  have h35 : n < 2 ^ (7 * 4 + 7) := by
    have h2 : (2 ^ 31 - 1 : Nat) < 2 ^ (7 * 4 + 7) := by norm_num
    omega
  have hlen : (packVarintLoop n).length ≤ 5 := packLoop_length_le 4 n h35
  have hr := readLoop_pack n 0 0 rest (by omega)
  simpa using hr

/-- Witness for C5 at n = 767 (two encoded bytes) with a non-empty
remainder. -/
theorem C5_varint_round_trip_witness :
    (767 : Nat) ≤ 2 ^ 31 - 1 ∧
    _read_varint (_pack_varint ((767 : Nat) : Int) ++ [9]) = .ok (767, [9]) :=
  ⟨by norm_num, C5_varint_round_trip 767 [9] (by norm_num)⟩

/-- On a stream whose bytes all carry the continuation bit, the decode
loop always errors (too many bytes, or end of stream mid-sequence). -/
theorem readLoop_cont_err (stream : List Nat)
    (hall : ∀ b ∈ stream, b &&& 0x80 ≠ 0) :
    ∀ acc k, ∃ e, readVarintLoop stream acc k = .error e := by
  induction stream with
  | nil => intro acc k; exact ⟨_, rfl⟩
  | cons b rest ih =>
      intro acc k
      rw [readVarintLoop]
      by_cases h5 : k + 1 > 5
      · rw [if_pos h5]
        exact ⟨_, rfl⟩
      · rw [if_neg h5]
        have hb : ¬ ((b &&& 128 == 0) = true) := by
          have hball := hall b (by simp)
          simpa using hball
        rw [if_neg hb]
        exact ih (fun x hx => hall x (by simp [hx])) _ _

/-- C6: VarInt decoding fails with a protocol error on every stream whose
first six (or more) bytes all have the continuation bit set (the error is
raised on consuming the sixth byte), and on every stream that ends before
a byte without the continuation bit is read. -/
theorem C6_varint_decode_fails :
    (∀ (b0 b1 b2 b3 b4 b5 : Nat) (rest : List Nat),
        b0 &&& 0x80 ≠ 0 → b1 &&& 0x80 ≠ 0 → b2 &&& 0x80 ≠ 0 →
        b3 &&& 0x80 ≠ 0 → b4 &&& 0x80 ≠ 0 → b5 &&& 0x80 ≠ 0 →
        _read_varint (b0 :: b1 :: b2 :: b3 :: b4 :: b5 :: rest) =
          .error (.ioError "VarInt too big")) ∧
    (∀ stream : List Nat, (∀ b ∈ stream, b &&& 0x80 ≠ 0) →
        ∃ e, _read_varint stream = .error e) := by
  constructor
  · intro b0 b1 b2 b3 b4 b5 rest h0 h1 h2 h3 h4 h5
    have hb0 : ¬ ((b0 &&& 128 == 0) = true) := by simpa using h0
    have hb1 : ¬ ((b1 &&& 128 == 0) = true) := by simpa using h1
    have hb2 : ¬ ((b2 &&& 128 == 0) = true) := by simpa using h2
    have hb3 : ¬ ((b3 &&& 128 == 0) = true) := by simpa using h3
    have hb4 : ¬ ((b4 &&& 128 == 0) = true) := by simpa using h4
    rw [_read_varint,
      readVarintLoop, if_neg (by norm_num : ¬ ((0 : Nat) + 1 > 5)), if_neg hb0,
      readVarintLoop, if_neg (by norm_num : ¬ ((0 : Nat) + 1 + 1 > 5)), if_neg hb1,
      readVarintLoop, if_neg (by norm_num : ¬ ((0 : Nat) + 1 + 1 + 1 > 5)), if_neg hb2,
      readVarintLoop, if_neg (by norm_num : ¬ ((0 : Nat) + 1 + 1 + 1 + 1 > 5)), if_neg hb3,
      readVarintLoop, if_neg (by norm_num : ¬ ((0 : Nat) + 1 + 1 + 1 + 1 + 1 > 5)), if_neg hb4,
      readVarintLoop, if_pos (by norm_num : (0 : Nat) + 1 + 1 + 1 + 1 + 1 + 1 > 5)]
  · intro stream hall
    exact readLoop_cont_err stream hall 0 0

/-- Witness for C6: six continuation bytes overflow; a short
all-continuation stream errors at end of stream. -/
theorem C6_varint_decode_fails_witness :
    ((128 : Nat) &&& 0x80 ≠ 0 ∧ (129 : Nat) &&& 0x80 ≠ 0 ∧ (255 : Nat) &&& 0x80 ≠ 0 ∧
     (130 : Nat) &&& 0x80 ≠ 0 ∧ (131 : Nat) &&& 0x80 ≠ 0 ∧ (132 : Nat) &&& 0x80 ≠ 0 ∧
     _read_varint [128, 129, 255, 130, 131, 132, 7] =
       .error (.ioError "VarInt too big")) ∧
    ((∀ b ∈ [(128 : Nat), 129], b &&& 0x80 ≠ 0) ∧
     ∃ e, _read_varint [(128 : Nat), 129] = .error e) :=
  ⟨⟨by decide, by decide, by decide, by decide, by decide, by decide,
    C6_varint_decode_fails.1 128 129 255 130 131 132 [7] (by decide) (by decide)
      (by decide) (by decide) (by decide) (by decide)⟩,
   ⟨by decide, C6_varint_decode_fails.2 [128, 129] (by decide)⟩⟩

/-! ## Theorems: query_status (C1) -/

/-- Field lookup on a status dictionary (none on a non-dict). -/
def statusLookup (v : PyVal) (k : String) : Option PyVal :=
  match v with
  | .obj fs => fs.lookup k
  | _ => none

/-- Every successful run of the protocol body yields a success-shaped
status dictionary. -/
theorem queryStatusEx_ok_shape (parse : JParse) (conn : Conn) (host : String)
    (port : Int) (protocol : Int) (v : PyVal)
    (hok : queryStatusEx parse conn host port protocol = .ok v) :
    ∃ motd pn pm vn vp, v = onlineStatus motd pn pm vn vp := by
  unfold queryStatusEx at hok
  rcases conn with m | stream
  · exact absurd hok (by simp [throw, throwThe, MonadExceptOf.throw])
  · simp only [bind, Except.bind, pure, Except.pure, throw, throwThe,
      MonadExceptOf.throw] at hok
    repeat' split at hok
    all_goals simp_all
    all_goals exact ⟨_, _, _, _, _, hok.symm⟩

/-- C1: for every host, port, protocol version and network/parse oracle
(timeouts and connection failures live in the oracle), `query_status`
never raises past its boundary: it returns either a success status with
`online=true` and no error entry, or a failure status with `online=false`
and a string under `"error"`.  Totality of the Lean function is the
never-raises guarantee; the disjunction is the shape guarantee. -/
theorem C1_query_status_never_raises (parse : JParse) (conn : Conn)
    (host : String) (port : Int) (protocol : Int) :
    (statusLookup (query_status parse conn host port protocol) "online" =
        some (.bool true) ∧
     statusLookup (query_status parse conn host port protocol) "error" = none) ∨
    (statusLookup (query_status parse conn host port protocol) "online" =
        some (.bool false) ∧
     ∃ msg, statusLookup (query_status parse conn host port protocol) "error" =
        some (.str msg)) := by
  rw [query_status]
  rcases hq : queryStatusEx parse conn host port protocol with e | v
  · right
    refine ⟨?_, pyErrStr e, ?_⟩ <;> rfl
  · left
    obtain ⟨motd, pn, pm, vn, vp, rfl⟩ :=
      queryStatusEx_ok_shape parse conn host port protocol v hq
    refine ⟨?_, ?_⟩ <;> rfl

/-! ## Theorems: fingerprint engine (C2, C9) -/

/-- C2: the fingerprint depends only on the six canonical projections
(online flag, motd, players.online, players.max, version.name,
version.protocol): any two status dictionaries that agree on those six
gets - whatever their other entries, such as the error text - receive
identical digests; and since `_hash_state` is a pure function of them,
field-for-field identical inputs always produce the same digest. -/
theorem C2_fingerprint_canonical (s1 s2 : PyVal)
    (h1 : canOnline s1 = canOnline s2) (h2 : canMotd s1 = canMotd s2)
    (h3 : canPlayersOnline s1 = canPlayersOnline s2)
    (h4 : canPlayersMax s1 = canPlayersMax s2)
    (h5 : canVersionName s1 = canVersionName s2)
    (h6 : canVersionProtocol s1 = canVersionProtocol s2) :
    _hash_state s1 = _hash_state s2 := by
  unfold _hash_state
  rw [h1, h2, h3, h4, h5, h6]

/-- Two statuses equal in the canonical fields, one carrying an error
text and extra latency entry the other lacks. -/
def wOnlineA : PyVal :=
  .obj [("online", .bool true), ("motd", .str "A"),
        ("players", .obj [("online", .num 3), ("max", .num 20)]),
        ("version", .obj [("name", .str "1.20"), ("protocol", .num 763)]),
        ("error", .str "transient glitch")]

/-- Same canonical fields as `wOnlineA`, different error text, extra
field. -/
def wOnlineB : PyVal :=
  .obj [("online", .bool true), ("motd", .str "A"),
        ("players", .obj [("online", .num 3), ("max", .num 20)]),
        ("version", .obj [("name", .str "1.20"), ("protocol", .num 763)]),
        ("error", .str "other text"), ("latency", .num 42)]

/-- Witness for C2: equal canonical projections, different `error`,
identical digests. -/
theorem C2_fingerprint_canonical_witness :
    (canOnline wOnlineA = canOnline wOnlineB ∧
     canMotd wOnlineA = canMotd wOnlineB ∧
     canPlayersOnline wOnlineA = canPlayersOnline wOnlineB ∧
     canPlayersMax wOnlineA = canPlayersMax wOnlineB ∧
     canVersionName wOnlineA = canVersionName wOnlineB ∧
     canVersionProtocol wOnlineA = canVersionProtocol wOnlineB) ∧
    _hash_state wOnlineA = _hash_state wOnlineB :=
  ⟨⟨rfl, rfl, rfl, rfl, rfl, rfl⟩,
   C2_fingerprint_canonical wOnlineA wOnlineB rfl rfl rfl rfl rfl rfl⟩

/-- The object case of `jsonDumps` with the `attach` scaffolding
eliminated: render each field, sort by key, join. -/
theorem jsonDumps_obj (fs : List (String × PyVal)) :
    jsonDumps (.obj fs) = "\x7b" ++ joinSep ", "
      ((sortByKey (fs.map fun p => (p.1, pyJsonQuote p.1 ++ ": " ++ jsonDumps p.2))).map
        Prod.snd) ++ "\x7d" := by
  rw [jsonDumps]
  rw [List.attach_map_val fs (fun p => (p.1, pyJsonQuote p.1 ++ ": " ++ jsonDumps p.2))]

/-- Rendering of the six-entry fingerprint payload: the keys sort to
motd, online, players_max, players_online, version_name,
version_protocol. -/
theorem dumps_payload_sorted (onl motd po pm vn vp : PyVal) :
    jsonDumps (.obj [("online", onl), ("motd", motd), ("players_online", po),
      ("players_max", pm), ("version_name", vn), ("version_protocol", vp)]) =
    "\x7b" ++ joinSep ", "
      ["\"motd\": " ++ jsonDumps motd,
       "\"online\": " ++ jsonDumps onl,
       "\"players_max\": " ++ jsonDumps pm,
       "\"players_online\": " ++ jsonDumps po,
       "\"version_name\": " ++ jsonDumps vn,
       "\"version_protocol\": " ++ jsonDumps vp] ++ "\x7d" := by
  rw [jsonDumps_obj]
  rfl

/-- C9: fingerprint sensitivity: two statuses equal in the canonical
fields except `players.online` = 3 versus 4 receive different digests
(their canonical serializations differ at the `players_online` entry, and
the digest is injective in the serialization). -/
theorem C9_fingerprint_sensitive (s1 s2 : PyVal) (o : Bool) (m : String)
    (pm vp : Int) (vn : String)
    (h1 : canOnline s1 = .ok (.bool o)) (h1b : canOnline s2 = .ok (.bool o))
    (h2 : canMotd s1 = .ok (.str m)) (h2b : canMotd s2 = .ok (.str m))
    (h3 : canPlayersOnline s1 = .ok (.num 3))
    (h3b : canPlayersOnline s2 = .ok (.num 4))
    (h4 : canPlayersMax s1 = .ok (.num pm)) (h4b : canPlayersMax s2 = .ok (.num pm))
    (h5 : canVersionName s1 = .ok (.str vn)) (h5b : canVersionName s2 = .ok (.str vn))
    (h6 : canVersionProtocol s1 = .ok (.num vp))
    (h6b : canVersionProtocol s2 = .ok (.num vp)) :
    _hash_state s1 ≠ _hash_state s2 := by
  intro heq
  unfold _hash_state at heq
  rw [h1, h1b, h2, h2b, h3, h3b, h4, h4b, h5, h5b, h6, h6b] at heq
  simp only [bind, Except.bind, pure, Except.pure, Except.ok.injEq] at heq
  unfold sha256_hexdigest at heq
  rw [dumps_payload_sorted, dumps_payload_sorted] at heq
  replace heq := congrArg String.data heq
  simp only [joinSep, String.data_append, List.append_assoc, List.cons_append,
    List.append_cancel_left_eq,
    show jsonDumps (.num (3 : Int)) = "3" by rw [jsonDumps]; rfl,
    show jsonDumps (.num (4 : Int)) = "4" by rw [jsonDumps]; rfl,
    show ("3" : String).data = ['3'] from rfl,
    show ("4" : String).data = ['4'] from rfl,
    List.cons.injEq] at heq
  simp at heq

/-- `wOnlineA` with `players.online` bumped from 3 to 4 and all other
fields kept. -/
def wOnlineC : PyVal :=
  .obj [("online", .bool true), ("motd", .str "A"),
        ("players", .obj [("online", .num 4), ("max", .num 20)]),
        ("version", .obj [("name", .str "1.20"), ("protocol", .num 763)]),
        ("error", .str "transient glitch")]

/-- Witness for C9: 3 versus 4 players online, all else equal, distinct
digests. -/
theorem C9_fingerprint_sensitive_witness :
    (canOnline wOnlineA = .ok (.bool true) ∧ canOnline wOnlineC = .ok (.bool true) ∧
     canMotd wOnlineA = .ok (.str "A") ∧ canMotd wOnlineC = .ok (.str "A") ∧
     canPlayersOnline wOnlineA = .ok (.num 3) ∧ canPlayersOnline wOnlineC = .ok (.num 4) ∧
     canPlayersMax wOnlineA = .ok (.num 20) ∧ canPlayersMax wOnlineC = .ok (.num 20) ∧
     canVersionName wOnlineA = .ok (.str "1.20") ∧ canVersionName wOnlineC = .ok (.str "1.20") ∧
     canVersionProtocol wOnlineA = .ok (.num 763) ∧ canVersionProtocol wOnlineC = .ok (.num 763)) ∧
    _hash_state wOnlineA ≠ _hash_state wOnlineC :=
  ⟨⟨rfl, rfl, rfl, rfl, rfl, rfl, rfl, rfl, rfl, rfl, rfl, rfl⟩,
   C9_fingerprint_sensitive wOnlineA wOnlineC true "A" 20 763 "1.20"
     rfl rfl rfl rfl rfl rfl rfl rfl rfl rfl rfl rfl⟩

/-! ## Theorems: status normalizer (C7) -/

/-- Prepending the empty string is the identity. -/
theorem empty_append_str (s : String) : "" ++ s = s := by
  apply String.ext
  simp

mutual
/-- The source flattening agrees with the spec's recursive flattening on
every description node. -/
theorem flatten_desc_eq (d : DescNode) :
    _flatten_description (descToPy d) = specFlatten d := by
  cases d with
  | txt s =>
      rw [descToPy, specFlatten, _flatten_description]
  | node t e =>
      rcases t with _ | ts <;> rcases e with _ | el
      · rw [descToPy, specFlatten, _flatten_description]
        rfl
      · rw [descToPy, specFlatten, _flatten_description]
        show pyJoin (List.map (fun x => _flatten_description x.1)
            (descListToPy el).attach) = "" ++ specFlattenList el
        rw [List.attach_map_val (descListToPy el) (fun x => _flatten_description x)]
        rw [flatten_list_eq el]
        exact (empty_append_str _).symm
      · rw [descToPy, specFlatten, _flatten_description]
        rfl
      · rw [descToPy, specFlatten, _flatten_description]
        show ts ++ pyJoin (List.map (fun x => _flatten_description x.1)
            (descListToPy el).attach) = ts ++ specFlattenList el
        rw [List.attach_map_val (descListToPy el) (fun x => _flatten_description x)]
        rw [flatten_list_eq el]
  | many xs =>
      rw [descToPy, specFlatten, _flatten_description]
      show pyJoin (List.map (fun x => _flatten_description x.1)
          (descListToPy xs).attach) = specFlattenList xs
      rw [List.attach_map_val (descListToPy xs) (fun x => _flatten_description x)]
      exact flatten_list_eq xs

/-- List form of the flattening agreement. -/
theorem flatten_list_eq (l : DescList) :
    pyJoin ((descListToPy l).map _flatten_description) = specFlattenList l := by
  cases l with
  | nil => rfl
  | cons h t =>
      rw [descListToPy, List.map, specFlattenList, pyJoin]
      rw [flatten_desc_eq h, flatten_list_eq t]
end

/-- The source stripping loop agrees with the spec's pair-removal
recursion on every character list. -/
theorem strip_eq : ∀ (l : List Char), stripColorLoop l = specStripChars l
  | [] => rfl
  | [_] => rfl
  | c :: d :: rest => by
      rw [stripColorLoop, specStripChars]
      by_cases hc : c = '§'
      · rw [if_pos hc, if_pos hc]
        exact strip_eq rest
      · rw [if_neg hc, if_neg hc]
        rw [strip_eq (d :: rest)]

/-- C7: the Status Normalizer refines the spec: (1) flattening any
recursive description (string, object with optional text and optional
extra list, array of nodes) is the spec's left-to-right concatenation
with text before the extra entries and array elements in order; (2) the
stripping pass is the spec's pair-removal recursion (each marker removed
together with exactly one following character, a trailing lone marker
dropped alone); (3) the claim's example flattens to "ABC"; (4) on a
concrete input the full pipeline also trims surrounding whitespace, as
`query_status` does with `.strip()`. -/
theorem C7_normalizer_refines_spec :
    (∀ d : DescNode, _flatten_description (descToPy d) = specFlatten d) ∧
    (∀ s : String, _strip_motd_color_codes s = String.mk (specStripChars s.data)) ∧
    _flatten_description (.obj [("text", .str "A"),
      ("extra", .arr [.obj [("text", .str "B")], .str "C"])]) = "ABC" ∧
    pyStrip (_strip_motd_color_codes (_flatten_description (.str "  \u00a7aHi \u00a7"))) = "Hi" := by
  refine ⟨flatten_desc_eq, ?_, ?_, ?_⟩
  · intro s
    unfold _strip_motd_color_codes
    rw [strip_eq]
  · exact flatten_desc_eq (DescNode.node (some "A")
      (some (.cons (.node (some "B") none) (.cons (.txt "C") .nil))))
  · show pyStrip (_strip_motd_color_codes
      (_flatten_description (descToPy (DescNode.txt "  \u00a7aHi \u00a7")))) = "Hi"
    rw [flatten_desc_eq (DescNode.txt "  \u00a7aHi \u00a7")]
    rfl

/-! ## Theorems: monitor engine (C3, C4, C8, C10) -/

/-- `jsonDumps` on a string value. -/
theorem dumps_str (s : String) : jsonDumps (.str s) = pyJsonQuote s := by
  rw [jsonDumps]

/-- `jsonDumps` on a bool value. -/
theorem dumps_bool (b : Bool) :
    jsonDumps (.bool b) = if b then "true" else "false" := by
  rw [jsonDumps]

/-- `jsonDumps` on an int value. -/
theorem dumps_num (n : Int) : jsonDumps (.num n) = toString n := by
  rw [jsonDumps]

/-- Fingerprinting a success status always succeeds, with the canonical
six-field payload. -/
theorem hash_online_ok (m : String) (pn pm : Int) (vn : String) (vp : Int) :
    _hash_state (onlineStatus m pn pm vn vp) =
    .ok (sha256_hexdigest (jsonDumps (.obj [("online", .bool true),
      ("motd", .str m), ("players_online", .num pn), ("players_max", .num pm),
      ("version_name", .str vn), ("version_protocol", .num vp)]))) := rfl

/-- Fingerprinting a failure status always succeeds and never depends on
the error text: every offline status has the same digest `wDigest`. -/
theorem hash_offline_ok (e : String) :
    _hash_state (offlineStatus e) = .ok wDigest := by
  show Except.ok (sha256_hexdigest (jsonDumps (.obj [("online", .bool false),
    ("motd", .str ""), ("players_online", .num 0), ("players_max", .num 0),
    ("version_name", .str ""), ("version_protocol", .num 0)]))) = .ok wDigest
  rw [dumps_payload_sorted, dumps_str, dumps_bool, dumps_num]
  rfl

/-- Every `query_status` result is one of the two status shapes. -/
theorem query_status_cases (parse : JParse) (conn : Conn) (host : String)
    (port : Int) (protocol : Int) :
    (∃ e, query_status parse conn host port protocol = offlineStatus e) ∨
    (∃ m pn pm vn vp,
      query_status parse conn host port protocol = onlineStatus m pn pm vn vp) := by
  rw [query_status]
  rcases hq : queryStatusEx parse conn host port protocol with e | v
  · exact .inl ⟨pyErrStr e, rfl⟩
  · obtain ⟨m, pn, pm, vn, vp, rfl⟩ :=
      queryStatusEx_ok_shape parse conn host port protocol v hq
    exact .inr ⟨m, pn, pm, vn, vp, rfl⟩

/-- Fingerprinting a query result never raises. -/
theorem hash_query_ok (parse : JParse) (conn : Conn) (host : String)
    (port : Int) (protocol : Int) :
    ∃ d, _hash_state (query_status parse conn host port protocol) = .ok d := by
  rcases query_status_cases parse conn host port protocol with ⟨e, he⟩ |
    ⟨m, pn, pm, vn, vp, he⟩ <;> rw [he]
  · exact ⟨_, hash_offline_ok e⟩
  · exact ⟨_, hash_online_ok m pn pm vn vp⟩

/-- Summarizing a query result never raises. -/
theorem fmt_query_ok (parse : JParse) (conn : Conn) (host : String)
    (port : Int) (protocol : Int) :
    ∃ s, fmt_status (query_status parse conn host port protocol) = .ok s := by
  rcases query_status_cases parse conn host port protocol with ⟨e, he⟩ |
    ⟨m, pn, pm, vn, vp, he⟩ <;> rw [he]
  · exact ⟨"Offline", rfl⟩
  · exact ⟨_, rfl⟩

/-- After `d[k] = v`, looking up `k` finds `v`. -/
theorem lookup_setKey_self (l : List (String × PyVal)) (k : String) (v : PyVal) :
    (setKey l k v).lookup k = some v := by
  induction l with
  | nil => simp [setKey, List.lookup]
  | cons hd tl ih =>
      obtain ⟨k2, v2⟩ := hd
      rw [setKey]
      by_cases hk : k2 = k
      · rw [if_pos hk]
        simp [List.lookup]
      · rw [if_neg hk]
        have hne : (k == k2) = false := by
          simp [Ne.symm hk]
        simp [List.lookup, hne, ih]

/-- After `d[k2] = v`, a key is present iff it was present before or it
is `k2`. -/
theorem lookup_setKey_isSome (l : List (String × PyVal)) (k k2 : String) (v : PyVal) :
    ((setKey l k2 v).lookup k).isSome = ((l.lookup k).isSome || (k == k2)) := by
  induction l with
  | nil =>
      simp only [setKey, List.lookup]
      cases hkk : (k == k2) <;> simp [hkk]
  | cons hd tl ih =>
      obtain ⟨a, b⟩ := hd
      rw [setKey]
      by_cases ha : a = k2
      · rw [if_pos ha]
        subst ha
        by_cases hk : k = a
        · simp [List.lookup, hk]
        · have hne : (k == a) = false := by simp [hk]
          simp [List.lookup, hne]
      · rw [if_neg ha]
        by_cases hk : k = a
        · simp [List.lookup, hk]
        · have hne : (k == a) = false := by simp [hk]
          simp [List.lookup, hne, ih]

/-- C3: a target with no stored baseline always takes the Changed branch
on its first poll, whatever the network returns: `monitor_once` hands a
notification to the notifier boundary and persists a fresh baseline
entry (fingerprint plus queried status) under the target's key, then
saves the state. -/
theorem C3_first_poll_changes (parse : JParse) (net : String → Int → Conn)
    (state : MState) (srv : Server) (hhost : srv.host ≠ "")
    (hnone : state.last.lookup (_server_key srv.host srv.port) = none) :
    ∃ st2 t dsc flds d,
      monitor_once parse net state srv = .ok (st2,
        [.notify state.webhook_url t dsc flds, .save st2]) ∧
      st2.last.lookup (_server_key srv.host srv.port) =
        some (.obj [("hash", .str d),
          ("data", query_status parse (net srv.host srv.port) srv.host srv.port
            srv.protocol)]) := by
  obtain ⟨d, hd⟩ := hash_query_ok parse (net srv.host srv.port) srv.host
    srv.port srv.protocol
  obtain ⟨fs, hfs⟩ := fmt_query_ok parse (net srv.host srv.port) srv.host
    srv.port srv.protocol
  refine ⟨⟨state.webhook_url, state.interval_sec, state.verbose_status,
    state.servers, setKey state.last (_server_key srv.host srv.port)
      (.obj [("hash", .str d), ("data", query_status parse
        (net srv.host srv.port) srv.host srv.port srv.protocol)])⟩,
    "[" ++ (match srv.name with
      | some n => if n = "" then _server_key srv.host srv.port else n
      | none => _server_key srv.host srv.port) ++ "] Status Changed",
    _server_key srv.host srv.port,
    [("Previous", "(none)"), ("Current", fs)], d, ?_, ?_⟩
  · unfold monitor_once
    rw [if_neg hhost]
    simp only [bind, Except.bind, hd, hnone, Option.getD]
    show Except.bind (_format_fields PyVal.null _) _ = _
    unfold _format_fields
    simp only [bind, Except.bind, hfs]
    rfl
  · exact lookup_setKey_self state.last _ _

/-- Witness for C3: first poll of a fresh state against a refused
connection still notifies and persists a baseline. -/
theorem C3_first_poll_changes_witness :
    wSrv.host ≠ "" ∧
    wState0.last.lookup (_server_key wSrv.host wSrv.port) = none ∧
    (∃ st2 t dsc flds d,
      monitor_once wParseFail wNetFail wState0 wSrv = .ok (st2,
        [.notify wState0.webhook_url t dsc flds, .save st2]) ∧
      st2.last.lookup (_server_key wSrv.host wSrv.port) =
        some (.obj [("hash", .str d),
          ("data", query_status wParseFail (wNetFail wSrv.host wSrv.port)
            wSrv.host wSrv.port wSrv.protocol)])) :=
  ⟨by decide, rfl,
   C3_first_poll_changes wParseFail wNetFail wState0 wSrv (by decide) rfl⟩

/-- When the fresh fingerprint matches the stored one, `monitor_once`
returns the state unchanged with no effects. -/
theorem monitor_unchanged_frame (parse : JParse) (net : String → Int → Conn)
    (state : MState) (srv : Server) (d : String)
    (hd : _hash_state (query_status parse (net srv.host srv.port) srv.host
      srv.port srv.protocol) = .ok d)
    (hp : pyDictGet ((state.last.lookup (_server_key srv.host srv.port)).getD
      (.obj [])) "hash" .null = .ok (.str d)) :
    monitor_once parse net state srv = .ok (state, []) := by
  by_cases hhost : srv.host = ""
  · unfold monitor_once
    rw [if_pos hhost]
  · unfold monitor_once
    rw [if_neg hhost]
    simp only [bind, Except.bind, hd, hp]
    simp [pyEqStr]

/-- Polling again right after any successful poll is Unchanged: the
second call returns the first call's state with no effects. -/
theorem monitor_idempotent (parse : JParse) (net : String → Int → Conn)
    (state : MState) (srv : Server) (st1 : MState) (effs : List Effect)
    (h : monitor_once parse net state srv = .ok (st1, effs)) :
    monitor_once parse net st1 srv = .ok (st1, []) := by
  by_cases hhost : srv.host = ""
  · unfold monitor_once at h ⊢
    rw [if_pos hhost] at h ⊢
  · obtain ⟨d, hd⟩ := hash_query_ok parse (net srv.host srv.port) srv.host
      srv.port srv.protocol
    unfold monitor_once at h ⊢
    rw [if_neg hhost] at h ⊢
    simp only [bind, Except.bind, hd] at h ⊢
    rcases hp : pyDictGet ((state.last.lookup (_server_key srv.host
        srv.port)).getD (.obj [])) "hash" .null with e | ph
    · simp only [hp] at h
      simp at h
    · simp only [hp] at h
      by_cases heq : pyEqStr ph d = true
      · rw [if_pos heq] at h
        have hst : state = st1 := congrArg Prod.fst (Except.ok.inj h)
        subst hst
        simp only [hp]
        rw [if_pos heq]
      · rw [if_neg heq] at h
        rcases hpd : pyDictGet ((state.last.lookup (_server_key srv.host
            srv.port)).getD (.obj [])) "data" .null with e2 | pd
        · simp only [hpd] at h
          simp at h
        · simp only [hpd] at h
          rcases hff : _format_fields pd (query_status parse (net srv.host
              srv.port) srv.host srv.port srv.protocol) with e3 | flds
          · simp only [hff] at h
            simp at h
          · simp only [hff] at h
            have hst := congrArg Prod.fst (Except.ok.inj h)
            subst hst
            rw [lookup_setKey_self]
            simp [pyDictGet, pyEqStr, List.lookup, Option.getD]

/-- C4: when a poll's fingerprint equals the stored baseline fingerprint,
`monitor_once` leaves the state untouched and performs no effect (no
baseline mutation, no save, no notification); in particular, whatever one
poll did, an immediately repeated poll against the same network answer is
Unchanged. -/
theorem C4_unchanged_no_mutation :
    (∀ (parse : JParse) (net : String → Int → Conn) (state : MState)
       (srv : Server) (d : String),
       _hash_state (query_status parse (net srv.host srv.port) srv.host
         srv.port srv.protocol) = .ok d →
       pyDictGet ((state.last.lookup (_server_key srv.host srv.port)).getD
         (.obj [])) "hash" .null = .ok (.str d) →
       monitor_once parse net state srv = .ok (state, [])) ∧
    (∀ (parse : JParse) (net : String → Int → Conn) (state : MState)
       (srv : Server) (st1 : MState) (effs : List Effect),
       monitor_once parse net state srv = .ok (st1, effs) →
       monitor_once parse net st1 srv = .ok (st1, [])) :=
  ⟨monitor_unchanged_frame, monitor_idempotent⟩

/-- Witness for C4: a state already holding the matching baseline is
returned untouched with no effects. -/
theorem C4_unchanged_no_mutation_witness :
    _hash_state (query_status wParseFail (wNetFail wSrv.host wSrv.port)
      wSrv.host wSrv.port wSrv.protocol) = .ok wDigest ∧
    pyDictGet ((wState1.last.lookup (_server_key wSrv.host wSrv.port)).getD
      (.obj [])) "hash" .null = .ok (.str wDigest) ∧
    monitor_once wParseFail wNetFail wState1 wSrv = .ok (wState1, []) := by
  have hd : _hash_state (query_status wParseFail (wNetFail wSrv.host wSrv.port)
      wSrv.host wSrv.port wSrv.protocol) = .ok wDigest := by
    rw [show query_status wParseFail (wNetFail wSrv.host wSrv.port) wSrv.host
      wSrv.port wSrv.protocol =
      offlineStatus "[Errno 111] Connection refused" from rfl]
    exact hash_offline_ok _
  exact ⟨hd, rfl, C4_unchanged_no_mutation.1 wParseFail wNetFail wState1 wSrv
    wDigest hd rfl⟩

/-- Full evaluation of a first poll that fails: the offline baseline is
created and a notification about the change to Offline is emitted. -/
theorem monitor_first_fail_eval :
    monitor_once wParseFail wNetFail wState0 wSrv =
      .ok (wState1, [.notify none "[play.example.org:25565] Status Changed"
        "play.example.org:25565" [("Previous", "(none)"), ("Current", "Offline")],
        .save wState1]) := by
  unfold monitor_once
  rw [if_neg (by decide : ¬ (wSrv.host = ""))]
  rw [show query_status wParseFail (wNetFail wSrv.host wSrv.port) wSrv.host
    wSrv.port wSrv.protocol =
    offlineStatus "[Errno 111] Connection refused" from rfl]
  simp only [bind, Except.bind, hash_offline_ok]
  rfl

/-- C8 counterexample: the claim that failed polls do not create a
Baseline is false on the code: polling a fresh state against a refused
connection yields an offline status, and yet a baseline entry is created
under the target's key (this is the very Changed event of C3). -/
theorem C8_baseline_counterexample :
    statusLookup (query_status wParseFail (wNetFail wSrv.host wSrv.port)
      wSrv.host wSrv.port wSrv.protocol) "online" = some (.bool false) ∧
    monitor_once wParseFail wNetFail wState0 wSrv =
      .ok (wState1, [.notify none "[play.example.org:25565] Status Changed"
        "play.example.org:25565" [("Previous", "(none)"), ("Current", "Offline")],
        .save wState1]) ∧
    (wState1.last.lookup (_server_key wSrv.host wSrv.port)).isSome = true :=
  ⟨rfl, monitor_first_fail_eval, rfl⟩

/-- String boolean equality is symmetric. -/
theorem strBeq_comm (a b : String) : (a == b) = (b == a) := by
  by_cases h : a = b
  · rw [h]
  · have h1 : (a == b) = false := by simpa using h
    have h2 : (b == a) = false := by simpa using Ne.symm h
    rw [h1, h2]

/-- One `monitor_once` step creates or keeps the baseline entry of its
own key and touches no other: a key is present afterwards iff it was
present before or it is the polled (non-skipped) target's key.  On the
unchanged branch the entry necessarily existed already, since a missing
entry yields a `None` stored hash which never equals the fresh digest
string. -/
theorem monitor_once_lookup (parse : JParse) (net : String → Int → Conn)
    (state : MState) (srv : Server) (st1 : MState) (effs : List Effect)
    (key : String) (h : monitor_once parse net state srv = .ok (st1, effs)) :
    (st1.last.lookup key).isSome =
      ((state.last.lookup key).isSome ||
       (srv.host != "" && (_server_key srv.host srv.port == key))) := by
  by_cases hhost : srv.host = ""
  · unfold monitor_once at h
    rw [if_pos hhost] at h
    have hst : state = st1 := congrArg Prod.fst (Except.ok.inj h)
    subst hst
    simp [hhost]
  · obtain ⟨d, hd⟩ := hash_query_ok parse (net srv.host srv.port) srv.host
      srv.port srv.protocol
    unfold monitor_once at h
    rw [if_neg hhost] at h
    simp only [bind, Except.bind, hd] at h
    rcases hp : pyDictGet ((state.last.lookup (_server_key srv.host
        srv.port)).getD (.obj [])) "hash" .null with e | ph
    · simp only [hp] at h
      simp at h
    · simp only [hp] at h
      by_cases heq : pyEqStr ph d = true
      · rw [if_pos heq] at h
        have hst : state = st1 := congrArg Prod.fst (Except.ok.inj h)
        subst hst
        rcases hlk : state.last.lookup (_server_key srv.host srv.port) with _ | entry
        · rw [hlk] at hp
          have hp2 : (Except.ok PyVal.null : Except PyErr PyVal) = .ok ph := hp
          rw [← Except.ok.inj hp2] at heq
          simp [pyEqStr] at heq
        · by_cases hk : key = _server_key srv.host srv.port
          · subst hk
            simp [hlk]
          · have hkeq : (_server_key srv.host srv.port == key) = false := by
              simpa using Ne.symm hk
            simp [hkeq]
      · rw [if_neg heq] at h
        rcases hpd : pyDictGet ((state.last.lookup (_server_key srv.host
            srv.port)).getD (.obj [])) "data" .null with e2 | pd
        · simp only [hpd] at h
          simp at h
        · simp only [hpd] at h
          rcases hff : _format_fields pd (query_status parse (net srv.host
              srv.port) srv.host srv.port srv.protocol) with e3 | flds
          · simp only [hff] at h
            simp at h
          · simp only [hff] at h
            have hst := congrArg Prod.fst (Except.ok.inj h)
            subst hst
            simp only [lookup_setKey_isSome]
            rw [strBeq_comm key (_server_key srv.host srv.port)]
            have hb : (srv.host != "") = true := by simpa using hhost
            rw [hb, Bool.true_and]

/-- Running a poll trace: a key is present in the final baselines iff it
was present initially or some poll of the trace targeted it. -/
theorem runPolls_lookup (parse : JParse) :
    ∀ (trace : List ((String → Int → Conn) × Server)) (st0 st : MState),
    runPolls parse trace st0 = .ok st → ∀ key,
    (st.last.lookup key).isSome =
      ((st0.last.lookup key).isSome || tracePolls trace key) := by
  intro trace
  induction trace with
  | nil =>
      intro st0 st h key
      have hst : st0 = st := Except.ok.inj h
      subst hst
      simp [tracePolls]
  | cons p rest ih =>
      intro st0 st h key
      obtain ⟨net, srv⟩ := p
      rw [runPolls] at h
      simp only [bind, Except.bind] at h
      rcases hm : monitor_once parse net st0 srv with e | r
      · simp only [hm] at h
        simp at h
      · simp only [hm] at h
        obtain ⟨st1, effs⟩ := r
        have hstep := monitor_once_lookup parse net st0 srv st1 effs key hm
        have hrest := ih st1 st h key
        rw [hrest, hstep]
        simp [tracePolls, Bool.or_assoc]

/-- C8 (amended): in every state reachable from a fresh state by a
sequence of `monitor_once` polls, a Baseline entry exists under a
target's key iff at least one poll attempt - successful or failed -
has completed for that key (a poll with an empty host is skipped and
completes nothing). -/
theorem C8_baseline_iff_polled (parse : JParse)
    (trace : List ((String → Int → Conn) × Server)) (key : String)
    (w : Option String) (iv : Int) (vb : Bool) (sv : List Server) (st : MState)
    (hrun : runPolls parse trace ⟨w, iv, vb, sv, []⟩ = .ok st) :
    (st.last.lookup key).isSome = tracePolls trace key := by
  have h := runPolls_lookup parse trace ⟨w, iv, vb, sv, []⟩ st hrun key
  simpa [List.lookup] using h

/-- Witness for C8 (amended): one failed poll creates exactly its own
baseline key. -/
theorem C8_baseline_iff_polled_witness :
    runPolls wParseFail [(wNetFail, wSrv)] ⟨none, 30, false, [], []⟩ =
      .ok wState1 ∧
    (wState1.last.lookup "play.example.org:25565").isSome =
      tracePolls [(wNetFail, wSrv)] "play.example.org:25565" := by
  have hrun : runPolls wParseFail [(wNetFail, wSrv)] ⟨none, 30, false, [], []⟩ =
      .ok wState1 := by
    show runPolls wParseFail [(wNetFail, wSrv)] wState0 = .ok wState1
    rw [runPolls]
    simp only [bind, Except.bind, monitor_first_fail_eval]
    rfl
  exact ⟨hrun, C8_baseline_iff_polled wParseFail [(wNetFail, wSrv)]
    "play.example.org:25565" none 30 false [] wState1 hrun⟩

/-- `str()` on a Python int renders its decimal form. -/
theorem pyStr_num (n : Int) : pyStr (.num n) = toString n := by
  show pyRepr (.num n) = toString n
  rw [pyRepr.eq_def]

/-- C10: the notification fields rendering rule: the inner summary is
"(none)" on a missing previous status (the `None` stored when no baseline
exists), "Offline" on a status whose `online` entry is false, and the
`Online: n/m Version: v MOTD: m` line otherwise; and `_format_fields`
applies that same rule to produce the "Previous" and "Current" fields
from the old and new status respectively. -/
theorem C10_notification_fields :
    (fmt_status PyVal.null = .ok "(none)") ∧
    (∀ fields : List (String × PyVal), fields ≠ [] →
      fields.lookup "online" = some (.bool false) →
      fmt_status (.obj fields) = .ok "Offline") ∧
    (∀ (fields ps vs : List (String × PyVal)) (pn pm : Int) (vn motd : String),
      fields ≠ [] →
      fields.lookup "online" = some (.bool true) →
      fields.lookup "players" = some (.obj ps) →
      ps.lookup "online" = some (.num pn) →
      ps.lookup "max" = some (.num pm) →
      fields.lookup "version" = some (.obj vs) →
      vs.lookup "name" = some (.str vn) →
      fields.lookup "motd" = some (.str motd) →
      fmt_status (.obj fields) = .ok ("Online: " ++ toString pn ++ "/" ++
        toString pm ++ " Version: " ++ vn ++ " MOTD: " ++ motd)) ∧
    (∀ (old new : PyVal) (p c : String), fmt_status old = .ok p →
      fmt_status new = .ok c →
      _format_fields old new = .ok [("Previous", p), ("Current", c)]) := by
  refine ⟨rfl, ?_, ?_, ?_⟩
  · intro fields hne honl
    have ht : pyTruthy (.obj fields) = true := by
      simp [pyTruthy, hne]
    unfold fmt_status
    rw [if_neg (by simp [ht])]
    simp only [bind, Except.bind, pyDictGet, honl, Option.getD]
    rfl
  · intro fields ps vs pn pm vn motd hne honl hpl hpo hpm hver hvn hmot
    have ht : pyTruthy (.obj fields) = true := by
      simp [pyTruthy, hne]
    unfold fmt_status
    rw [if_neg (by simp [ht])]
    simp only [bind, Except.bind, pyDictGet, honl, hpl, hpo, hpm, hver, hvn,
      hmot, Option.getD]
    rw [if_neg (by simp [pyTruthy])]
    simp only [pyStr_num]
    rfl
  · intro old new p c hp hc
    unfold _format_fields
    simp only [bind, Except.bind, hp, hc]
    rfl

/-- Witness for C10 at a concrete success status and `None` previous. -/
theorem C10_notification_fields_witness :
    (([("online", PyVal.bool true), ("motd", PyVal.str "A"),
       ("players", PyVal.obj [("online", PyVal.num 3), ("max", PyVal.num 20)]),
       ("version", PyVal.obj [("name", PyVal.str "1.20"),
         ("protocol", PyVal.num 763)])] : List (String × PyVal)) ≠ [] ∧
     ([("online", PyVal.bool true), ("motd", PyVal.str "A"),
       ("players", PyVal.obj [("online", PyVal.num 3), ("max", PyVal.num 20)]),
       ("version", PyVal.obj [("name", PyVal.str "1.20"),
         ("protocol", PyVal.num 763)])].lookup "online") = some (.bool true) ∧
     fmt_status (onlineStatus "A" 3 20 "1.20" 763) =
       .ok ("Online: " ++ toString (3 : Int) ++ "/" ++ toString (20 : Int) ++
         " Version: " ++ "1.20" ++ " MOTD: " ++ "A") ∧
     fmt_status PyVal.null = .ok "(none)" ∧
     _format_fields PyVal.null (onlineStatus "A" 3 20 "1.20" 763) =
       .ok [("Previous", "(none)"),
            ("Current", "Online: " ++ toString (3 : Int) ++ "/" ++
              toString (20 : Int) ++ " Version: " ++ "1.20" ++ " MOTD: " ++ "A")]) := by
  have hfmt := C10_notification_fields.2.2.1
    [("online", .bool true), ("motd", .str "A"),
     ("players", .obj [("online", .num 3), ("max", .num 20)]),
     ("version", .obj [("name", .str "1.20"), ("protocol", .num 763)])]
    [("online", .num 3), ("max", .num 20)]
    [("name", .str "1.20"), ("protocol", .num 763)]
    3 20 "1.20" "A" (by simp) rfl rfl rfl rfl rfl rfl rfl
  have hfc := C10_notification_fields.2.2.2 PyVal.null
    (onlineStatus "A" 3 20 "1.20" 763) "(none)" _
    C10_notification_fields.1 hfmt
  exact ⟨by simp, rfl, hfmt, C10_notification_fields.1, hfc⟩
